import Mathlib

/-!
Verification of the MH-Z* CO2 sensor driver's packet codec and framing
reader, shallowly embedded from the Rust sources.

Bytes are modelled as `Nat` values; `u8` wraparound arithmetic is written
out as explicit `% 256`.  A 9-byte packet is a `List Nat` of length 9.
A byte stream is a `List (List Nat)`: the successive chunks delivered by
the stream's `read` calls (the mock reader in `read_package.rs` delivers
one list element per read and returns a count of 0 once exhausted; an
empty chunk models a read returning 0).
-/

namespace MhZx

/-- Packet payload size in bytes (`PAYLOAD_SIZE` in `lib.rs`). -/
def PAYLOAD_SIZE : Nat := 9

/-- Size of the scratch read buffer in `read_package.rs` (`5 * PAYLOAD_SIZE`). -/
def BUF_SIZE : Nat := 5 * PAYLOAD_SIZE

/-- One `u8::wrapping_add` step, as used by the checksum folds. -/
def wadd (s i : Nat) : Nat := (s + i) % 256

/-- `checksum` from `measurement.rs`: fold `wrapping_add` over bytes 1..=7
(`iter().skip(1).take(7)`), bitwise-complement the `u8` result
(`!x = 255 - x` for `x < 256`), then `wrapping_add(1)`. -/
def checksum (p : List Nat) : Nat :=
  (255 - ((p.drop 1).take 7).foldl wadd 0 + 1) % 256

/-- `checksum_valid` from `measurement.rs`: the computed checksum equals byte 8. -/
def checksum_valid (p : List Nat) : Bool :=
  checksum p == p.getD 8 0

/-- The `Measurement` struct from `measurement.rs` (all fields are byte /
`u16` values, modelled as `Nat`). -/
structure Measurement where
  co2 : Nat
  temp : Nat
  calib_ticks : Nat
  calib_cycles : Nat
deriving DecidableEq, Repr

/-- `Measurement::parse_response` from `measurement.rs`: requires byte 0 =
`0xFF` and byte 1 = `0x86`, otherwise `Err(Error::InvalidPacket)` (modelled
as `none`); on success destructures `[_, _, ch, cl, temp, calib_ticks,
calib_cycles, _, _]` and builds `co2 = u16::from_be_bytes([ch, cl])`. -/
def parse_response (p : List Nat) : Option Measurement :=
  if p.getD 0 0 ≠ 255 ∨ p.getD 1 0 ≠ 134 then none
  else some { co2 := p.getD 2 0 * 256 + p.getD 3 0
            , temp := p.getD 4 0
            , calib_ticks := p.getD 5 0
            , calib_cycles := p.getD 6 0 }

/-- `Packet::checksum` from `lib.rs` (the blocking API duplicates the same
formula as `measurement.rs`): fold `wrapping_add` over bytes 1..=7,
complement, `wrapping_add(1)`. -/
def Packet.checksum (p : List Nat) : Nat :=
  (255 - ((p.drop 1).take 7).foldl wadd 0 + 1) % 256

/-- `Packet::checksum_valid` from `lib.rs`. -/
def Packet.checksum_valid (p : List Nat) : Bool :=
  Packet.checksum p == p.getD 8 0

/-- `<Measurement as TryFrom<Packet>>::try_from` from `lib.rs`: fails
(`Err(InvalidResponse(p))`, modelled as `none`) when byte 0 is not `0xFF`,
byte 1 is not `0x86`, or the checksum does not validate; otherwise decodes
the same fields as `parse_response`. -/
def try_from_measurement (p : List Nat) : Option Measurement :=
  if p.getD 0 0 ≠ 255 ∨ p.getD 1 0 ≠ 134 ∨ Packet.checksum_valid p = false then none
  else some { co2 := p.getD 2 0 * 256 + p.getD 3 0
            , temp := p.getD 4 0
            , calib_ticks := p.getD 5 0
            , calib_cycles := p.getD 6 0 }

/-!
## The framing reader (`read_package.rs`)

`read_package` keeps a 45-byte scratch buffer that persists across reads
(the Rust code never clears it; bytes beyond the count `n` of the latest
read are stale data from earlier reads, initially zero).  The result type
has a dedicated constructor for the Rust panic that occurs when the slice
`&buf[offset..n]` is taken with `offset > n`, and a `stuck` constructor for
fuel exhaustion of the model (never hit with the fuel budget used by
`read_package` below on terminating runs).
-/

/-- Result of the framing reader: a complete packet, `Err(ReadingEOF)`, a
Rust panic, or model fuel exhaustion. -/
inductive RPResult where
  | ok (pkg : List Nat)
  | eofErr
  | panicked
  | stuck
deriving DecidableEq, Repr

/-- The scan idiom `buf.iter().rev().skip_while(|byte| **byte != 0xff).count()`
from `read_package.rs`: the number of elements from the last `0xFF`
(inclusive) to the end of the list, or 0 when there is no `0xFF`. -/
def package_start (l : List Nat) : Nat :=
  (l.reverse.dropWhile (fun b => b != 255)).length

/-- The `Ordering::Greater` re-scan of `read_package.rs` lines 63-76: keep
only the trailing `PAYLOAD_SIZE` bytes of the body
(`&body[body.len().saturating_sub(PAYLOAD_SIZE)..]`), look for the newest
`0xFF` there; `none` models the `break` when no marker is found, otherwise
the new body starts at that marker (`&body[newest_starts - 1..]`). -/
def rescan (body : List Nat) : Option (List Nat) :=
  let w := body.drop (body.length - PAYLOAD_SIZE)
  let k := package_start w
  if k = 0 then none else some (w.drop (k - 1))

mutual

/-- The outer `loop` of `read_package` (lines 25-39): read a chunk, fail with
`ReadingEOF` on a zero-byte read, scan the whole scratch buffer for the
newest `0xFF`, `continue` when there is none, panic when the marker offset
exceeds the read count, otherwise enter the inner accumulation loop with
`body = &buf[offset..n]`.  The first argument is recursion fuel. -/
def outerLoop : Nat → List Nat → List Nat → Nat → List (List Nat) → RPResult
  | 0, _, _, _, _ => .stuck
  | fuel+1, buf, pkg, needed, stream =>
    match stream with
    | [] => .eofErr
    | c :: rest =>
      let c := c.take BUF_SIZE
      let n := c.length
      if n = 0 then .eofErr
      else
        let buf := c ++ buf.drop n
        let ps := package_start buf
        if ps = 0 then outerLoop fuel buf pkg needed rest
        else
          let offset := ps - 1
          if n < offset then .panicked
          else innerLoop fuel buf pkg needed ((buf.take n).drop offset) rest

/-- The inner `while needed > 0` loop of `read_package` (lines 40-77):
`Equal` returns the completed packet, `Less` appends the body, reads the
next chunk and uses it wholesale as the new body (`&buf[..n]`), `Greater`
discards the candidate, resets `needed` to `PAYLOAD_SIZE` and re-scans via
`rescan`, breaking back to the outer loop when no marker is found. -/
def innerLoop : Nat → List Nat → List Nat → Nat → List Nat → List (List Nat) → RPResult
  | 0, _, _, _, _, _ => .stuck
  | fuel+1, buf, pkg, needed, body, stream =>
    if needed = 0 then outerLoop fuel buf pkg needed stream
    else if body.length = needed then .ok (pkg ++ body)
    else if body.length < needed then
      match stream with
      | [] => .eofErr
      | c :: rest =>
        let c := c.take BUF_SIZE
        let n := c.length
        if n = 0 then .eofErr
        else
          let buf := c ++ buf.drop n
          innerLoop fuel buf (pkg ++ body) (needed - body.length) (buf.take n) rest
    else
      match rescan body with
      | none => outerLoop fuel buf [] PAYLOAD_SIZE stream
      | some body2 => innerLoop fuel buf [] PAYLOAD_SIZE body2 stream

end

/-- `read_package` from `read_package.rs`: start with a zeroed 45-byte
scratch buffer, an empty candidate and `needed = PAYLOAD_SIZE`.  The fuel
budget `4 * stream.length + 4` is ample: every loop iteration either
consumes a stream read or reaches one within two further steps. -/
def read_package (stream : List (List Nat)) : RPResult :=
  outerLoop (4 * stream.length + 4) (List.replicate BUF_SIZE 0) [] PAYLOAD_SIZE stream

/-!
## Definitions modelled from the specification's words

These are deliberately written from the spec / claim text, to be compared
with the definitions above that embed the source.
-/

/-- Modelled from the spec: the position of the most recent `0xFF` in a byte
sequence, i.e. the largest index holding 255, or `none` when there is no
255 at all. -/
def lastMarker : List Nat → Option Nat
  | [] => none
  | b :: t =>
    match lastMarker t with
    | some i => some (i + 1)
    | none => if b = 255 then some 0 else none

/-- Modelled from the amended claim C2: in the `Greater` case only the
trailing `PAYLOAD_SIZE` bytes of the remaining body are searched, for their
most recent `0xFF`; a marker earlier in the body is dropped. -/
def rescan_amended (body : List Nat) : Option (List Nat) :=
  let w := body.drop (body.length - PAYLOAD_SIZE)
  match lastMarker w with
  | none => none
  | some i => some (w.drop i)

/-- Modelled from claim C2 as stated: the `Greater` case re-scans the
entire remaining body for a new `0xFF` start marker, and restarts
accumulation at the most recent one whenever a marker is found anywhere in
the remaining body. -/
def rescan_claimed (body : List Nat) : Option (List Nat) :=
  let k := package_start body
  if k = 0 then none else some (body.drop (k - 1))

mutual

/-- Modelled from claim C3 as stated: a variant of the framing reader whose
top-of-loop marker scan covers exactly the bytes of the chunk just read (the
`n` bytes the stream delivered), instead of the whole persistent scratch
buffer.  Every other step is identical to `outerLoop`. -/
def outerLoopChunkScan : Nat → List Nat → List Nat → Nat → List (List Nat) → RPResult
  | 0, _, _, _, _ => .stuck
  | fuel+1, buf, pkg, needed, stream =>
    match stream with
    | [] => .eofErr
    | c :: rest =>
      let c := c.take BUF_SIZE
      let n := c.length
      if n = 0 then .eofErr
      else
        let buf := c ++ buf.drop n
        let ps := package_start c
        if ps = 0 then outerLoopChunkScan fuel buf pkg needed rest
        else
          let offset := ps - 1
          if n < offset then .panicked
          else innerLoopChunkScan fuel buf pkg needed ((buf.take n).drop offset) rest

/-- Inner loop of the claim-modelled chunk-scan variant; identical to
`innerLoop` except that it recurses into the chunk-scan pair. -/
def innerLoopChunkScan : Nat → List Nat → List Nat → Nat → List Nat → List (List Nat) → RPResult
  | 0, _, _, _, _, _ => .stuck
  | fuel+1, buf, pkg, needed, body, stream =>
    if needed = 0 then outerLoopChunkScan fuel buf pkg needed stream
    else if body.length = needed then .ok (pkg ++ body)
    else if body.length < needed then
      match stream with
      | [] => .eofErr
      | c :: rest =>
        let c := c.take BUF_SIZE
        let n := c.length
        if n = 0 then .eofErr
        else
          let buf := c ++ buf.drop n
          innerLoopChunkScan fuel buf (pkg ++ body) (needed - body.length) (buf.take n) rest
    else
      match rescan body with
      | none => outerLoopChunkScan fuel buf [] PAYLOAD_SIZE stream
      | some body2 => innerLoopChunkScan fuel buf [] PAYLOAD_SIZE body2 stream

end

/-- Modelled from claim C3 as stated: `read_package` as the claim describes
it, scanning only each chunk's own bytes. -/
def read_package_chunk_scan (stream : List (List Nat)) : RPResult :=
  outerLoopChunkScan (4 * stream.length + 4) (List.replicate BUF_SIZE 0) [] PAYLOAD_SIZE stream

/-!
Replays of the Rust unit tests of `read_package.rs`, validating the
embedding against the source's own test suite.
-/

/-- Test `reject_one_with_trailing_data`: one read of 10 bytes, then EOF. -/
theorem test_reject_one_with_trailing_data :
    read_package [[255, 2, 3, 4, 5, 6, 7, 8, 9, 10]] = .eofErr := by decide

/-- Test `reject_two_reads_with_trailing_data`. -/
theorem test_reject_two_reads :
    read_package [[255, 2, 3, 4, 5, 6, 7, 8, 9, 10], [11, 12, 13]] = .eofErr := by
  decide

/-- Test `two_packages_accept_last`. -/
theorem test_two_packages_accept_last :
    read_package [[255, 2, 3, 4, 5, 6, 7, 8, 9, 10],
      [1, 2, 3, 255, 12, 13, 14], [15, 16, 17, 18, 19]] =
      .ok [255, 12, 13, 14, 15, 16, 17, 18, 19] := by decide

/-- Test `three_packages_accept_last`. -/
theorem test_three_packages_accept_last :
    read_package [[255, 2, 3, 4, 5, 6, 7, 8, 9, 10],
      [255, 2, 3, 4, 5, 6, 7, 8, 9, 10],
      [255, 12, 13, 14, 15, 16, 17, 18, 19]] =
      .ok [255, 12, 13, 14, 15, 16, 17, 18, 19] := by decide

/-- Test `read_second_package`. -/
theorem test_read_second_package :
    read_package [[255, 2, 3, 4], [5, 6, 7, 8, 9, 10],
      [255, 12, 13, 14, 15, 16, 17, 18, 19]] =
      .ok [255, 12, 13, 14, 15, 16, 17, 18, 19] := by decide

/-- Test `eof`: a start marker plus three body bytes, two more body bytes,
then EOF. -/
theorem test_eof :
    read_package [[255, 2, 3, 4], [5, 6]] = .eofErr := by decide

/-- Test `accept_last_package` (`huge_read`): four packets' worth of data in
a single 38-byte read. -/
theorem test_huge_read :
    read_package [[255, 2, 3, 4, 5, 6, 7, 8, 9, 10, 255, 22, 23, 24, 25, 26,
      27, 28, 29, 255, 2, 3, 4, 5, 6, 7, 8, 9, 10, 255, 12, 13, 14, 15, 16,
      17, 18, 19]] = .ok [255, 12, 13, 14, 15, 16, 17, 18, 19] := by decide

/-!
## Helper lemmas about the marker scan
-/

/-- The scan count never exceeds the length of the scanned list. -/
theorem package_start_le (l : List Nat) : package_start l ≤ l.length := by
  unfold package_start
  calc (l.reverse.dropWhile (fun b => b != 255)).length
      ≤ l.reverse.length := (List.dropWhile_sublist _).length_le
    _ = l.length := l.length_reverse

/-- A list containing 255 has a positive scan count. -/
theorem package_start_pos (l : List Nat) (h : 255 ∈ l) : 0 < package_start l := by
  unfold package_start
  rw [List.length_pos]
  intro hnil
  rw [List.dropWhile_eq_nil_iff] at hnil
  have h255 := hnil 255 (by simpa using h)
  simp at h255

/-- Appending marker-free bytes on the right does not move the newest
marker: the scan count over `c ++ z` equals the one over `c` whenever `z`
contains no 255. -/
theorem package_start_append (c z : List Nat) (hz : 255 ∉ z) :
    package_start (c ++ z) = package_start c := by
  unfold package_start
  rw [List.reverse_append, List.dropWhile_append_of_pos]
  intro a ha
  simp only [bne_iff_ne, ne_eq]
  rintro rfl
  exact hz (by simpa using ha)

/-- The scan count over `a ++ 255 :: t` with a marker-free tail `t` is
`a.length + 1`: the newest marker sits at index `a.length`. -/
theorem package_start_marker (a t : List Nat) (ht : 255 ∉ t) :
    package_start (a ++ 255 :: t) = a.length + 1 := by
  have hall : ∀ b ∈ t.reverse, (b != 255) = true := by
    intro b hb
    simp only [bne_iff_ne, ne_eq]
    rintro rfl
    exact ht (by simpa using hb)
  unfold package_start
  rw [List.reverse_append]
  rw [show (255 :: t).reverse = t.reverse ++ [255] by simp]
  rw [List.append_assoc, List.singleton_append]
  rw [List.dropWhile_append_of_pos hall]
  rw [List.dropWhile_cons_of_neg (by simp)]
  simp

/-- How `lastMarker` behaves on a right-appended element. -/
theorem lastMarker_append_singleton (xs : List Nat) (x : Nat) :
    lastMarker (xs ++ [x]) = if x = 255 then some xs.length else lastMarker xs := by
  induction xs with
  | nil => simp [lastMarker]
  | cons b t ih =>
    have step : lastMarker ((b :: t) ++ [x]) =
        match lastMarker (t ++ [x]) with
        | some i => some (i + 1)
        | none => if b = 255 then some 0 else none := rfl
    rw [step, ih]
    by_cases hx : x = 255
    · simp [hx]
    · rw [if_neg hx, if_neg hx]
      rfl

/-- Bridge between the source's reverse-scan idiom and the spec-modelled
index of the most recent marker: the scan count is that index plus one (or
zero when there is no marker). -/
theorem package_start_eq_lastMarker (l : List Nat) :
    package_start l = match lastMarker l with | none => 0 | some i => i + 1 := by
  induction l using List.reverseRecOn with
  | nil => simp [package_start, lastMarker]
  | append_singleton xs x ih =>
    rw [lastMarker_append_singleton]
    unfold package_start
    rw [List.reverse_append, show [x].reverse = [x] by simp, List.singleton_append]
    by_cases hx : x = 255
    · rw [List.dropWhile_cons_of_neg (by simp [hx])]
      simp [hx]
    · rw [List.dropWhile_cons_of_pos (by simpa using hx)]
      rw [if_neg hx]
      exact ih

/-- The source's `Greater`-branch re-scan agrees with the amended-claim
model: only the trailing `PAYLOAD_SIZE` bytes are searched for their most
recent marker. -/
theorem rescan_eq_amended (body : List Nat) : rescan body = rescan_amended body := by
  simp only [rescan, rescan_amended]
  rw [package_start_eq_lastMarker]
  cases h : lastMarker (body.drop (body.length - PAYLOAD_SIZE)) with
  | none => simp
  | some i => simp

/-!
## Single-step unfolding lemmas for the framing loops
-/

/-- An outer-loop read whose whole-buffer scan finds a marker hands
`&buf[offset..n]` to the inner loop. -/
theorem outerLoop_step_found (fuel : Nat) (buf pkg : List Nat) (needed : Nat)
    (c : List Nat) (rest : List (List Nat))
    (hc : c.length ≤ BUF_SIZE) (hn : 0 < c.length)
    (hps : 0 < package_start (c ++ buf.drop c.length))
    (hoff : package_start (c ++ buf.drop c.length) - 1 ≤ c.length) :
    outerLoop (fuel + 1) buf pkg needed (c :: rest) =
      innerLoop fuel (c ++ buf.drop c.length) pkg needed
        (((c ++ buf.drop c.length).take c.length).drop
          (package_start (c ++ buf.drop c.length) - 1)) rest := by
  simp only [outerLoop]
  rw [List.take_of_length_le hc]
  rw [if_neg (by omega), if_neg (by omega), if_neg (by omega)]

/-- An outer-loop read whose whole-buffer scan finds no marker skips the
chunk, leaving candidate and `needed` untouched. -/
theorem outerLoop_step_none (fuel : Nat) (buf pkg : List Nat) (needed : Nat)
    (c : List Nat) (rest : List (List Nat))
    (hc : c.length ≤ BUF_SIZE) (hne : c ≠ [])
    (hps : package_start (c ++ buf.drop c.length) = 0) :
    outerLoop (fuel + 1) buf pkg needed (c :: rest) =
      outerLoop fuel (c ++ buf.drop c.length) pkg needed rest := by
  simp only [outerLoop]
  rw [List.take_of_length_le hc]
  rw [if_neg (by simpa [List.length_eq_zero] using hne), if_pos hps]

/-- The `Ordering::Equal` case: the body completes the candidate. -/
theorem innerLoop_step_done (fuel : Nat) (buf pkg : List Nat) (needed : Nat)
    (body : List Nat) (stream : List (List Nat))
    (h0 : needed ≠ 0) (hlen : body.length = needed) :
    innerLoop (fuel + 1) buf pkg needed body stream = .ok (pkg ++ body) := by
  simp only [innerLoop]
  rw [if_neg h0, if_pos hlen]

/-- The `Ordering::Less` case against an exhausted stream: `ReadingEOF`. -/
theorem innerLoop_step_less_eof (fuel : Nat) (buf pkg : List Nat) (needed : Nat)
    (body : List Nat)
    (h0 : needed ≠ 0) (hlt : body.length < needed) :
    innerLoop (fuel + 1) buf pkg needed body [] = .eofErr := by
  simp only [innerLoop]
  rw [if_neg h0, if_neg (by omega), if_pos hlt]

/-- The `Ordering::Greater` case: discard the candidate, reset `needed` to
`PAYLOAD_SIZE`, and continue according to the trailing-window re-scan. -/
theorem innerLoop_step_greater (fuel : Nat) (buf pkg : List Nat) (needed : Nat)
    (body : List Nat) (stream : List (List Nat))
    (h0 : needed ≠ 0) (hgt : needed < body.length) :
    innerLoop (fuel + 1) buf pkg needed body stream =
      match rescan body with
      | none => outerLoop fuel buf [] PAYLOAD_SIZE stream
      | some body2 => innerLoop fuel buf [] PAYLOAD_SIZE body2 stream := by
  simp only [innerLoop]
  rw [if_neg h0, if_neg (by omega), if_neg (by omega)]

/-- A read that delivers zero bytes behaves exactly as end-of-stream:
inserting an empty chunk anywhere truncates the run the same way exhausting
the stream at that point would, because both make the pending read return a
count of 0, which both read sites map to `ReadingEOF` at once. -/
theorem skip_empty_read (fuel : Nat) :
    (∀ buf pkg needed S T, outerLoop fuel buf pkg needed (S ++ [] :: T)
        = outerLoop fuel buf pkg needed S)
    ∧ (∀ buf pkg needed body S T, innerLoop fuel buf pkg needed body (S ++ [] :: T)
        = innerLoop fuel buf pkg needed body S) := by
  induction fuel with
  | zero => exact ⟨fun _ _ _ _ _ => rfl, fun _ _ _ _ _ _ => rfl⟩
  | succ f ih =>
    obtain ⟨ihO, ihI⟩ := ih
    constructor
    · intro buf pkg needed S T
      cases S with
      | nil => simp [outerLoop]
      | cons c S2 =>
        simp only [List.cons_append, outerLoop]
        split_ifs
        · rfl
        · exact ihO _ _ _ _ _
        · rfl
        · exact ihI _ _ _ _ _ _
    · intro buf pkg needed body S T
      simp only [innerLoop]
      split_ifs
      · exact ihO _ _ _ _ _
      · rfl
      · cases S with
        | nil => simp
        | cons c S2 =>
          simp only [List.cons_append]
          split_ifs
          · rfl
          · exact ihI _ _ _ _ _ _
      · cases hr : rescan body with
        | none => exact ihO _ _ _ _ _
        | some b2 => exact ihI _ _ _ _ _ _

/-- A stream delivering a start marker plus three body bytes and then
returning 0 ends in `ReadingEOF`, whatever the three bytes are. -/
theorem read_marker_plus_three_eof (a b c : Nat) :
    read_package [[255, a, b, c]] = .eofErr := by
  have hlen : ([255, a, b, c] : List Nat).length = 4 := by simp
  have hz : (255 : Nat) ∉ (List.replicate BUF_SIZE 0).drop ([255, a, b, c] : List Nat).length := by
    rw [List.drop_replicate]
    simp [List.mem_replicate]
  have hps : package_start
        (([255, a, b, c] : List Nat) ++ (List.replicate BUF_SIZE 0).drop ([255, a, b, c] : List Nat).length)
      = package_start [255, a, b, c] := package_start_append _ _ hz
  have hpos : 0 < package_start [255, a, b, c] := package_start_pos _ (by simp)
  have hle : package_start [255, a, b, c] ≤ 4 := by
    have h := package_start_le [255, a, b, c]
    simpa using h
  unfold read_package
  rw [show 4 * ([[255, a, b, c]] : List (List Nat)).length + 4 = (6 + 1) + 1 by simp]
  rw [outerLoop_step_found (6 + 1) _ _ _ _ _ (by simp [BUF_SIZE, PAYLOAD_SIZE]) (by simp)
    (by rw [hps]; exact hpos) (by rw [hps]; omega)]
  rw [hps, List.take_left]
  exact innerLoop_step_less_eof 6 _ _ _ _ (by decide)
    (by rw [List.length_drop, hlen]; simp only [PAYLOAD_SIZE]; omega)

/-- When the first read's chunk ends with a complete packet `255 :: t` whose
tail `t` is marker-free, `read_package` returns exactly that trailing
packet — whatever bytes `a` precede it in the chunk and whatever the stream
would deliver later: the whole-buffer scan locates the packet's `0xFF` as
the newest marker and the `Equal` case returns it within the first
iteration. -/
theorem read_package_trailing (a t : List Nat) (rest : List (List Nat))
    (ha : a.length + 9 ≤ BUF_SIZE) (ht : t.length = 8) (hn : 255 ∉ t) :
    read_package ((a ++ 255 :: t) :: rest) = .ok (255 :: t) := by
  have hclen : (a ++ 255 :: t).length = a.length + 9 := by simp [ht]
  have hz : (255 : Nat) ∉ t ++ (List.replicate BUF_SIZE 0).drop (a ++ 255 :: t).length := by
    intro hmem
    rcases List.mem_append.mp hmem with h | h
    · exact hn h
    · rw [List.drop_replicate] at h
      simp [List.mem_replicate] at h
  have hps : package_start
        ((a ++ 255 :: t) ++ (List.replicate BUF_SIZE 0).drop (a ++ 255 :: t).length)
      = a.length + 1 := by
    rw [List.append_assoc, List.cons_append]
    exact package_start_marker a _ hz
  unfold read_package
  rw [show 4 * (((a ++ 255 :: t) :: rest).length) + 4 = ((4 * rest.length + 6) + 1) + 1 by
    simp only [List.length_cons]; omega]
  rw [outerLoop_step_found ((4 * rest.length + 6) + 1) _ _ _ _ _
    (by rw [hclen]; exact ha) (by rw [hclen]; omega)
    (by rw [hps]; omega) (by rw [hps, hclen]; omega)]
  rw [hps, Nat.add_sub_cancel, List.take_left, List.drop_left]
  rw [innerLoop_step_done (4 * rest.length + 6) _ _ _ _ _ (by decide)
    (by simp [ht, PAYLOAD_SIZE])]
  simp

/-- The checksum of an explicit 9-byte packet, written out: the fold of
`wrapping_add` over bytes 1..7 is their sum modulo 256. -/
theorem checksum_explicit (c0 c1 c2 c3 c4 c5 c6 c7 c8 : Nat) :
    checksum [c0, c1, c2, c3, c4, c5, c6, c7, c8]
      = (255 - (c1 + c2 + c3 + c4 + c5 + c6 + c7) % 256 + 1) % 256 := by
  show (255 - ([c1, c2, c3, c4, c5, c6, c7].foldl wadd 0) + 1) % 256 = _
  simp only [List.foldl_cons, List.foldl_nil, wadd]
  omega

/-!
## Claim theorems
-/

/-- C5: `Measurement::parse_response` returns `Err(InvalidPacket)` exactly
when byte 0 is not `0xFF` or byte 1 is not `0x86`, and otherwise `Ok`; its
result does not depend on the checksum byte 8 in any way. -/
theorem c5_parse_response_header_only (b0 b1 b2 b3 b4 b5 b6 b7 b8 b9 : Nat) :
    (parse_response [b0, b1, b2, b3, b4, b5, b6, b7, b8] = none ↔ b0 ≠ 255 ∨ b1 ≠ 134)
    ∧ parse_response [b0, b1, b2, b3, b4, b5, b6, b7, b8]
        = parse_response [b0, b1, b2, b3, b4, b5, b6, b7, b9] := by
  have e0 : ([b0, b1, b2, b3, b4, b5, b6, b7, b8] : List Nat).getD 0 0 = b0 := rfl
  have e1 : ([b0, b1, b2, b3, b4, b5, b6, b7, b8] : List Nat).getD 1 0 = b1 := rfl
  have f0 : ([b0, b1, b2, b3, b4, b5, b6, b7, b9] : List Nat).getD 0 0 = b0 := rfl
  have f1 : ([b0, b1, b2, b3, b4, b5, b6, b7, b9] : List Nat).getD 1 0 = b1 := rfl
  constructor
  · unfold parse_response
    rw [e0, e1]
    split_ifs with h
    · simpa using h
    · simpa using h
  · have e2 : ([b0, b1, b2, b3, b4, b5, b6, b7, b8] : List Nat).getD 2 0 = b2 := rfl
    have e3 : ([b0, b1, b2, b3, b4, b5, b6, b7, b8] : List Nat).getD 3 0 = b3 := rfl
    have e4 : ([b0, b1, b2, b3, b4, b5, b6, b7, b8] : List Nat).getD 4 0 = b4 := rfl
    have e5 : ([b0, b1, b2, b3, b4, b5, b6, b7, b8] : List Nat).getD 5 0 = b5 := rfl
    have e6 : ([b0, b1, b2, b3, b4, b5, b6, b7, b8] : List Nat).getD 6 0 = b6 := rfl
    have f2 : ([b0, b1, b2, b3, b4, b5, b6, b7, b9] : List Nat).getD 2 0 = b2 := rfl
    have f3 : ([b0, b1, b2, b3, b4, b5, b6, b7, b9] : List Nat).getD 3 0 = b3 := rfl
    have f4 : ([b0, b1, b2, b3, b4, b5, b6, b7, b9] : List Nat).getD 4 0 = b4 := rfl
    have f5 : ([b0, b1, b2, b3, b4, b5, b6, b7, b9] : List Nat).getD 5 0 = b5 := rfl
    have f6 : ([b0, b1, b2, b3, b4, b5, b6, b7, b9] : List Nat).getD 6 0 = b6 := rfl
    unfold parse_response
    rw [e0, e1, f0, f1, e2, e3, e4, e5, e6, f2, f3, f4, f5, f6]

/-- C6 counterexample: the spec's scenario packet does not decode with
`temp = 1`; `Measurement.temp` takes byte 4 of the packet, which is 0 here
(the spec misreads the field). -/
theorem c6_counterexample :
    parse_response [255, 134, 1, 0, 0, 0, 0, 0, 121]
      ≠ some { co2 := 256, temp := 1, calib_ticks := 0, calib_cycles := 0 } := by
  decide

/-- C6 (amended): the scenario packet `FF 86 01 00 00 00 00 00 79` passes
the checksum check and decodes to co2 = 0x0100 = 256, temp = 0,
calib_ticks = 0, calib_cycles = 0. -/
theorem c6_scenario_decode :
    checksum_valid [255, 134, 1, 0, 0, 0, 0, 0, 121] = true
    ∧ parse_response [255, 134, 1, 0, 0, 0, 0, 0, 121]
        = some { co2 := 256, temp := 0, calib_ticks := 0, calib_cycles := 0 } := by
  decide

/-- C7: the checksum of a 9-byte packet is the byte obtained by summing
bytes 1 through 7 modulo 256, complementing, and adding 1 with wraparound;
and `checksum_valid` holds exactly when this value equals byte 8. -/
theorem c7_checksum_formula (b0 b1 b2 b3 b4 b5 b6 b7 b8 : Nat) :
    checksum [b0, b1, b2, b3, b4, b5, b6, b7, b8]
        = (255 - (b1 + b2 + b3 + b4 + b5 + b6 + b7) % 256 + 1) % 256
    ∧ (checksum_valid [b0, b1, b2, b3, b4, b5, b6, b7, b8] = true
        ↔ checksum [b0, b1, b2, b3, b4, b5, b6, b7, b8] = b8) := by
  refine ⟨checksum_explicit b0 b1 b2 b3 b4 b5 b6 b7 b8, ?_⟩
  have e8 : ([b0, b1, b2, b3, b4, b5, b6, b7, b8] : List Nat).getD 8 0 = b8 := rfl
  unfold checksum_valid
  rw [e8, beq_iff_eq]

/-- C8: for a 9-byte packet of genuine bytes with a valid checksum,
replacing any single interior byte (positions 1 through 7) by a different
byte value invalidates the checksum. -/
theorem c8_flip_interior_invalidates (b0 b1 b2 b3 b4 b5 b6 b7 b8 i v : Nat)
    (h1 : b1 < 256) (h2 : b2 < 256) (h3 : b3 < 256) (h4 : b4 < 256)
    (h5 : b5 < 256) (h6 : b6 < 256) (h7 : b7 < 256) (hv : v < 256)
    (hlo : 1 ≤ i) (hhi : i ≤ 7)
    (hne : v ≠ [b0, b1, b2, b3, b4, b5, b6, b7, b8].getD i 0)
    (hval : checksum_valid [b0, b1, b2, b3, b4, b5, b6, b7, b8] = true) :
    checksum_valid ([b0, b1, b2, b3, b4, b5, b6, b7, b8].set i v) = false := by
  unfold checksum_valid at hval
  rw [checksum_explicit, show ([b0, b1, b2, b3, b4, b5, b6, b7, b8] : List Nat).getD 8 0 = b8
    from rfl, beq_iff_eq] at hval
  interval_cases i
  · have hx : v ≠ b1 := hne
    rw [show ([b0, b1, b2, b3, b4, b5, b6, b7, b8] : List Nat).set 1 v
      = [b0, v, b2, b3, b4, b5, b6, b7, b8] from rfl]
    unfold checksum_valid
    rw [checksum_explicit, show ([b0, v, b2, b3, b4, b5, b6, b7, b8] : List Nat).getD 8 0 = b8
      from rfl, beq_eq_false_iff_ne]
    omega
  · have hx : v ≠ b2 := hne
    rw [show ([b0, b1, b2, b3, b4, b5, b6, b7, b8] : List Nat).set 2 v
      = [b0, b1, v, b3, b4, b5, b6, b7, b8] from rfl]
    unfold checksum_valid
    rw [checksum_explicit, show ([b0, b1, v, b3, b4, b5, b6, b7, b8] : List Nat).getD 8 0 = b8
      from rfl, beq_eq_false_iff_ne]
    omega
  · have hx : v ≠ b3 := hne
    rw [show ([b0, b1, b2, b3, b4, b5, b6, b7, b8] : List Nat).set 3 v
      = [b0, b1, b2, v, b4, b5, b6, b7, b8] from rfl]
    unfold checksum_valid
    rw [checksum_explicit, show ([b0, b1, b2, v, b4, b5, b6, b7, b8] : List Nat).getD 8 0 = b8
      from rfl, beq_eq_false_iff_ne]
    omega
  · have hx : v ≠ b4 := hne
    rw [show ([b0, b1, b2, b3, b4, b5, b6, b7, b8] : List Nat).set 4 v
      = [b0, b1, b2, b3, v, b5, b6, b7, b8] from rfl]
    unfold checksum_valid
    rw [checksum_explicit, show ([b0, b1, b2, b3, v, b5, b6, b7, b8] : List Nat).getD 8 0 = b8
      from rfl, beq_eq_false_iff_ne]
    omega
  · have hx : v ≠ b5 := hne
    rw [show ([b0, b1, b2, b3, b4, b5, b6, b7, b8] : List Nat).set 5 v
      = [b0, b1, b2, b3, b4, v, b6, b7, b8] from rfl]
    unfold checksum_valid
    rw [checksum_explicit, show ([b0, b1, b2, b3, b4, v, b6, b7, b8] : List Nat).getD 8 0 = b8
      from rfl, beq_eq_false_iff_ne]
    omega
  · have hx : v ≠ b6 := hne
    rw [show ([b0, b1, b2, b3, b4, b5, b6, b7, b8] : List Nat).set 6 v
      = [b0, b1, b2, b3, b4, b5, v, b7, b8] from rfl]
    unfold checksum_valid
    rw [checksum_explicit, show ([b0, b1, b2, b3, b4, b5, v, b7, b8] : List Nat).getD 8 0 = b8
      from rfl, beq_eq_false_iff_ne]
    omega
  · have hx : v ≠ b7 := hne
    rw [show ([b0, b1, b2, b3, b4, b5, b6, b7, b8] : List Nat).set 7 v
      = [b0, b1, b2, b3, b4, b5, b6, v, b8] from rfl]
    unfold checksum_valid
    rw [checksum_explicit, show ([b0, b1, b2, b3, b4, b5, b6, v, b8] : List Nat).getD 8 0 = b8
      from rfl, beq_eq_false_iff_ne]
    omega

/-- Witness for C8: flipping byte 2 of the valid scenario packet from 1 to
7 makes the checksum invalid. -/
theorem c8_witness :
    checksum_valid (([255, 134, 1, 0, 0, 0, 0, 0, 121] : List Nat).set 2 7) = false :=
  c8_flip_interior_invalidates 255 134 1 0 0 0 0 0 121 2 7
    (by decide) (by decide) (by decide) (by decide) (by decide) (by decide)
    (by decide) (by decide) (by decide) (by decide) (by decide) (by decide)

/-- C10: the blocking API's `TryFrom<Packet> for Measurement` checks the
checksum itself: it succeeds exactly when byte 0 is `0xFF`, byte 1 is
`0x86` and the checksum validates; an invalid checksum alone forces
`Err(InvalidResponse)` even with a correct header. -/
theorem c10_try_from_checks_checksum (b0 b1 b2 b3 b4 b5 b6 b7 b8 : Nat) :
    ((∃ m, try_from_measurement [b0, b1, b2, b3, b4, b5, b6, b7, b8] = some m)
      ↔ b0 = 255 ∧ b1 = 134
        ∧ Packet.checksum_valid [b0, b1, b2, b3, b4, b5, b6, b7, b8] = true)
    ∧ (Packet.checksum_valid [b0, b1, b2, b3, b4, b5, b6, b7, b8] = false
        → try_from_measurement [b0, b1, b2, b3, b4, b5, b6, b7, b8] = none) := by
  have e0 : ([b0, b1, b2, b3, b4, b5, b6, b7, b8] : List Nat).getD 0 0 = b0 := rfl
  have e1 : ([b0, b1, b2, b3, b4, b5, b6, b7, b8] : List Nat).getD 1 0 = b1 := rfl
  constructor
  · unfold try_from_measurement
    rw [e0, e1]
    split_ifs with h
    · constructor
      · rintro ⟨m, hm⟩
        exact hm.elim
      · rintro ⟨rfl, rfl, hcv⟩
        rcases h with h | h | h
        · exact absurd rfl h
        · exact absurd rfl h
        · rw [hcv] at h
          exact Bool.noConfusion h
    · push_neg at h
      obtain ⟨ha, hb, hc⟩ := h
      exact ⟨fun _ => ⟨ha, hb, by simpa using hc⟩, fun _ => ⟨_, rfl⟩⟩
  · intro hcv
    unfold try_from_measurement
    rw [e0, e1, if_pos (Or.inr (Or.inr hcv))]

/-- C1 counterexample: two complete, checksum-valid back-to-back packets in
one read, where the second packet carries an interior `0xFF` (byte 2).  The
scan locks onto that interior marker, accumulation restarts mid-packet, and
the run ends in `ReadingEOF` instead of returning P2. -/
theorem c1_counterexample :
    read_package [[255, 134, 1, 0, 0, 0, 0, 0, 121, 255, 134, 255, 0, 0, 0, 0, 0, 123]]
      ≠ .ok [255, 134, 255, 0, 0, 0, 0, 0, 123] := by
  decide

/-- C1 (amended): when a single chunk carries earlier bytes followed by a
complete final packet whose bytes after the leading `0xFF` are marker-free,
`read_package` returns exactly that last packet and never an earlier one —
both for two back-to-back packets and for three concatenated packets. -/
theorem c1_last_packet_wins (P1 Q1 Q2 t u : List Nat) (rest rest3 : List (List Nat))
    (hP1 : P1.length = 9) (hP1h : P1.getD 0 0 = 255)
    (ht : t.length = 8) (htn : 255 ∉ t)
    (hQ1 : Q1.length = 9) (hQ1h : Q1.getD 0 0 = 255)
    (hQ2 : Q2.length = 9) (hQ2h : Q2.getD 0 0 = 255)
    (hu : u.length = 8) (hun : 255 ∉ u) :
    (read_package ((P1 ++ 255 :: t) :: rest) = .ok (255 :: t)
      ∧ (P1 ≠ 255 :: t → read_package ((P1 ++ 255 :: t) :: rest) ≠ .ok P1))
    ∧ read_package ((Q1 ++ Q2 ++ 255 :: u) :: rest3) = .ok (255 :: u) := by
  refine ⟨⟨read_package_trailing P1 t rest (by rw [hP1]; decide) ht htn, ?_⟩, ?_⟩
  · intro hne hcontra
    rw [read_package_trailing P1 t rest (by rw [hP1]; decide) ht htn] at hcontra
    exact hne (RPResult.ok.inj hcontra).symm
  · exact read_package_trailing (Q1 ++ Q2) u rest3
      (by rw [List.length_append, hQ1, hQ2]; decide) hu hun

/-- Witness for C1: concrete two-packet and three-packet streams. -/
theorem c1_witness :
    (read_package [([255, 2, 3, 4, 5, 6, 7, 8, 9] ++ 255 :: [12, 13, 14, 15, 16, 17, 18, 19])]
        = .ok (255 :: [12, 13, 14, 15, 16, 17, 18, 19])
      ∧ ([255, 2, 3, 4, 5, 6, 7, 8, 9] ≠ 255 :: [12, 13, 14, 15, 16, 17, 18, 19] →
          read_package
              [([255, 2, 3, 4, 5, 6, 7, 8, 9] ++ 255 :: [12, 13, 14, 15, 16, 17, 18, 19])]
            ≠ .ok [255, 2, 3, 4, 5, 6, 7, 8, 9]))
    ∧ read_package [([255, 2, 3, 4, 5, 6, 7, 8, 9] ++ [255, 22, 23, 24, 25, 26, 27, 28, 29]
        ++ 255 :: [12, 13, 14, 15, 16, 17, 18, 19])]
        = .ok (255 :: [12, 13, 14, 15, 16, 17, 18, 19]) :=
  c1_last_packet_wins [255, 2, 3, 4, 5, 6, 7, 8, 9] [255, 2, 3, 4, 5, 6, 7, 8, 9]
    [255, 22, 23, 24, 25, 26, 27, 28, 29] [12, 13, 14, 15, 16, 17, 18, 19]
    [12, 13, 14, 15, 16, 17, 18, 19] [] []
    (by decide) (by decide) (by decide) (by decide) (by decide) (by decide)
    (by decide) (by decide) (by decide) (by decide)

/-- C2 counterexample: a `Greater`-case body of 18 bytes whose only `0xFF`
sits at position 0, outside the trailing 9-byte window.  The source's
re-scan (`rescan`, the code of lines 67-75) finds nothing, while the
claim's whole-body re-scan restarts at that marker. -/
theorem c2_counterexample :
    rescan [255, 1, 2, 3, 4, 5, 6, 7, 8, 9, 10, 11, 12, 13, 14, 15, 16, 17]
      ≠ rescan_claimed [255, 1, 2, 3, 4, 5, 6, 7, 8, 9, 10, 11, 12, 13, 14, 15, 16, 17] := by
  decide

/-- C2 (amended): in the `Greater` case the candidate is discarded, `needed`
is reset to `PAYLOAD_SIZE`, and only the trailing `PAYLOAD_SIZE` bytes of
the remaining body are re-scanned for their most recent `0xFF`: a marker
found there restarts accumulation within the same iteration without another
stream read; otherwise — even when a marker occurs earlier in the remaining
body — the rest of the chunk is dropped and the engine waits for the next
read with an empty candidate. -/
theorem c2_greater_rescans_trailing_window :
    (∀ body : List Nat, rescan body = rescan_amended body)
    ∧ ∀ (fuel : Nat) (buf pkg : List Nat) (needed : Nat) (body : List Nat)
        (stream : List (List Nat)), needed ≠ 0 → needed < body.length →
        innerLoop (fuel + 1) buf pkg needed body stream =
          match rescan body with
          | none => outerLoop fuel buf [] PAYLOAD_SIZE stream
          | some body2 => innerLoop fuel buf [] PAYLOAD_SIZE body2 stream :=
  ⟨rescan_eq_amended, innerLoop_step_greater⟩

/-- Witness for C2: the `Greater` step at a concrete oversized body whose
marker lies before the trailing window falls back to the outer loop. -/
theorem c2_witness :
    innerLoop (0 + 1) (List.replicate BUF_SIZE 0) [] 9
        [255, 1, 2, 3, 4, 5, 6, 7, 8, 9, 10, 11, 12, 13, 14, 15, 16, 17] []
      = outerLoop 0 (List.replicate BUF_SIZE 0) [] PAYLOAD_SIZE [] := by
  have h := c2_greater_rescans_trailing_window.2 0 (List.replicate BUF_SIZE 0) [] 9
    [255, 1, 2, 3, 4, 5, 6, 7, 8, 9, 10, 11, 12, 13, 14, 15, 16, 17] []
    (by decide) (by decide)
  rw [h, show rescan [255, 1, 2, 3, 4, 5, 6, 7, 8, 9, 10, 11, 12, 13, 14, 15, 16, 17]
    = none from by decide]

/-- C3 counterexample: after a 13-byte chunk whose marker-led data is
discarded by the `Greater` case, a 2-byte chunk arrives.  The source scans
the entire persistent scratch buffer, finds the stale `0xFF` at index 3 —
beyond the 2 bytes just read — and panics slicing `&buf[3..2]`; the
claim-modelled reader scanning only the chunk's own bytes instead skips the
chunk and returns the packet delivered by the third read. -/
theorem c3_counterexample :
    read_package [[1, 2, 3, 255, 5, 6, 7, 8, 9, 10, 11, 12, 13], [9, 9],
        [255, 21, 22, 23, 24, 25, 26, 27, 28]]
      ≠ read_package_chunk_scan [[1, 2, 3, 255, 5, 6, 7, 8, 9, 10, 11, 12, 13], [9, 9],
        [255, 21, 22, 23, 24, 25, 26, 27, 28]]
    ∧ read_package [[1, 2, 3, 255, 5, 6, 7, 8, 9, 10, 11, 12, 13], [9, 9],
        [255, 21, 22, 23, 24, 25, 26, 27, 28]] = .panicked
    ∧ read_package_chunk_scan [[1, 2, 3, 255, 5, 6, 7, 8, 9, 10, 11, 12, 13], [9, 9],
        [255, 21, 22, 23, 24, 25, 26, 27, 28]]
      = .ok [255, 21, 22, 23, 24, 25, 26, 27, 28] := by
  decide

/-- C3 (amended): the top-of-loop scan covers the entire 45-byte scratch
buffer — the chunk's bytes followed by stale bytes from earlier reads — and
locates the most recent `0xFF` of the whole buffer; when the stale region
holds no marker (in particular on the first read, over the zero-filled
buffer) this coincides with scanning the chunk alone; and when the whole
buffer has no marker the chunk is skipped with the accumulation state left
unchanged. -/
theorem c3_whole_buffer_scan :
    (∀ l : List Nat,
        package_start l = match lastMarker l with | none => 0 | some i => i + 1)
    ∧ (∀ c z : List Nat, 255 ∉ z → package_start (c ++ z) = package_start c)
    ∧ ∀ (fuel : Nat) (buf pkg : List Nat) (needed : Nat) (c : List Nat)
        (rest : List (List Nat)), c.length ≤ BUF_SIZE → c ≠ [] →
        package_start (c ++ buf.drop c.length) = 0 →
        outerLoop (fuel + 1) buf pkg needed (c :: rest)
          = outerLoop fuel (c ++ buf.drop c.length) pkg needed rest :=
  ⟨package_start_eq_lastMarker, package_start_append, outerLoop_step_none⟩

/-- Witness for C3: the scan over a chunk extended by marker-free bytes
equals the scan over the chunk alone. -/
theorem c3_witness : package_start ([1, 255] ++ [0, 0]) = package_start [1, 255] :=
  c3_whole_buffer_scan.2.1 [1, 255] [0, 0] (by decide)

/-- C4: a stream read returning zero bytes before a packet completes makes
`read_package` fail with `ReadingEOF`: an empty chunk anywhere truncates
the run exactly as end-of-stream would, an exhausted stream fails at once,
and in particular a start marker plus three body bytes followed by a zero
read yields `ReadingEOF`. -/
theorem c4_zero_read_is_eof :
    (∀ (fuel : Nat) (buf pkg : List Nat) (needed : Nat) (S T : List (List Nat)),
        outerLoop fuel buf pkg needed (S ++ [] :: T) = outerLoop fuel buf pkg needed S)
    ∧ (∀ (fuel : Nat) (buf pkg : List Nat) (needed : Nat) (body : List Nat)
        (S T : List (List Nat)),
        innerLoop fuel buf pkg needed body (S ++ [] :: T)
          = innerLoop fuel buf pkg needed body S)
    ∧ read_package [] = .eofErr
    ∧ ∀ a b c : Nat, read_package [[255, a, b, c]] = .eofErr :=
  ⟨fun fuel => (skip_empty_read fuel).1, fun fuel => (skip_empty_read fuel).2,
    by decide, read_marker_plus_three_eof⟩

/-- C9: `read_package` is not panic-free: on this two-read stream the
`Greater` case leaves a stale `0xFF` at buffer index 3, the next read
delivers only 2 bytes, the whole-buffer scan sets `offset = 3 > n = 2`, and
the slice `&buf[offset..n]` panics. -/
theorem c9_stale_marker_panic :
    read_package [[1, 2, 3, 255, 5, 6, 7, 8, 9, 10, 11, 12, 13], [9, 9]] = .panicked := by
  decide

end MhZx
